import Mathlib

/-
Verification of the credential lifecycle manager (supabase edge functions,
bootstrap worker and health scheduler) against its natural-language spec.

The TypeScript source is embedded shallowly: each handler becomes a pure
Lean function over explicit database-row records, fallible steps become
Except, and the per-request environment (encryption key, provider call
outcomes, fallible inserts) is passed as explicit parameters.
-/

namespace Auth1

/-! ## Cipher

Modelled from the spec: the AES cipher itself is the external crypto-js
library (npm:crypto-js), not code of this repository.  Per section 4.1 of
the spec it is a symmetric keyed cipher whose decryption inverts encryption
under the same key and fails with a DecryptionError on malformed or
wrong-key ciphertext.  We model it as an injective keyed encoding: the
ciphertext is a salt header, a key fingerprint (unary length marker plus
the key characters, making headers of distinct keys prefix-incomparable),
then the payload.  The wrappers encrypt and decrypt below follow
src/supabase/functions/util/crypto.ts literally. -/

/-- Error raised by a failed decryption (crypto-js raises a plain Error
with message Malformed UTF-8 data; the spec calls it DecryptionError). -/
inductive DecryptionError where
  | malformed
deriving Repr, DecidableEq

/-- Salt marker beginning every ciphertext (OpenSSL-compatible format). -/
def saltMarker : List Char := "Salted__".data

/-- Key-dependent header of a ciphertext: salt, a unary encoding of the
key length, a separator, the key characters, a separator. -/
def cipherHeader (key : String) : List Char :=
  saltMarker ++ List.replicate key.length 'x' ++ ['|'] ++ key.data ++ ['|']

/-- Modelled from the spec: raw AES encryption of the external crypto-js
library (CryptoJS.AES.encrypt(data, key).toString()). -/
def aesEncryptRaw (data key : String) : String :=
  String.mk (cipherHeader key ++ data.data)

/-- Modelled from the spec: raw AES decryption of the external crypto-js
library; fails on ciphertext not produced under the same key. -/
def aesDecryptRaw (c key : String) : Except DecryptionError String :=
  let h := cipherHeader key
  if c.data.take h.length = h then
    Except.ok (String.mk (c.data.drop h.length))
  else
    Except.error DecryptionError.malformed

/-- encrypt from src/supabase/functions/util/crypto.ts: empty (falsy)
plaintext short-circuits to the empty string. -/
def encrypt (data key : String) : String :=
  if data = "" then "" else aesEncryptRaw data key

/-- decrypt from src/supabase/functions/util/crypto.ts: empty (falsy)
ciphertext short-circuits to the empty string; a crypto-js failure
(a thrown Malformed UTF-8 data error) is modelled as Except.error. -/
def decrypt (encryptedData key : String) : Except DecryptionError String :=
  if encryptedData = "" then Except.ok "" else aesDecryptRaw encryptedData key

theorem cipherHeader_ne_nil (key : String) : cipherHeader key ≠ [] := by
  simp [cipherHeader, saltMarker]

theorem encrypt_ne_empty (data key : String) (h : data ≠ "") :
    encrypt data key ≠ "" := by
  simp only [encrypt, if_neg h]
  intro hc
  have : (aesEncryptRaw data key).data = ("" : String).data := by rw [hc]
  simp only [aesEncryptRaw] at this
  exact cipherHeader_ne_nil key (by simpa using List.append_eq_nil.mp this |>.1)

theorem aes_round_trip (data key : String) :
    aesDecryptRaw (aesEncryptRaw data key) key = Except.ok data := by
  simp [aesEncryptRaw, aesDecryptRaw, List.take_left, List.drop_left]

/-- Claim C2: for every non-empty string s and key k,
decrypt (encrypt s k) k = s; and for every key k, encrypt of the empty
string is the empty string and decrypt of the empty string is the empty
string (the empty-input short-circuit returns empty and never fails). -/
theorem encrypt_decrypt_round_trip :
    (∀ s k : String, s ≠ "" → decrypt (encrypt s k) k = Except.ok s) ∧
    (∀ k : String, encrypt "" k = "") ∧
    (∀ k : String, decrypt "" k = Except.ok "") := by
  refine ⟨fun s k hs => ?_, fun k => by simp [encrypt], fun k => by simp [decrypt]⟩
  have hne : encrypt s k ≠ "" := encrypt_ne_empty s k hs
  simp only [decrypt, if_neg hne, encrypt, if_neg hs]
  exact aes_round_trip s k

/-- Closed witness for the round-trip claim at a concrete input. -/
theorem encrypt_decrypt_round_trip_witness :
    decrypt (encrypt "tok1" "secretKey") "secretKey" = Except.ok "tok1" :=
  encrypt_decrypt_round_trip.1 "tok1" "secretKey" (by decide)

/-! ## Refresh-due decision

src/supabase/functions/healthCheck/index.ts lines 89 to 94: a credential
of type oauth with a (truthy) expires_at is refreshed when
expiresAt.getTime() - now.getTime() < 60 * 60 * 1000.  Timestamps are
modelled as milliseconds since epoch (Int). -/

/-- The refresh-due decision of healthCheck/index.ts (strict comparison
with the one-hour threshold). -/
def refreshDue (credentialType : String) (expiresAt : Option Int) (now : Int) : Bool :=
  credentialType == "oauth" &&
    match expiresAt with
    | some e => decide (e - now < 60 * 60 * 1000)
    | none => false

/-- Definition following the claim text (not the source): due when
expires_at - now is at most one hour. -/
def claimRefreshDue (credentialType : String) (expiresAt : Option Int) (now : Int) : Bool :=
  credentialType == "oauth" &&
    match expiresAt with
    | some e => decide (e - now ≤ 60 * 60 * 1000)
    | none => false

/-- The needsRefresh test of the scheduler sweep (src/unnamed/part_003
line 91): expiresAt < Date.now() + one hour, again a strict comparison. -/
def needsRefreshSweep (expiresAt : Option Int) (now : Int) : Bool :=
  match expiresAt with
  | some e => decide (e < now + 60 * 60 * 1000)
  | none => false

/-- Counterexample to claim C3: at expiry exactly one hour from now the
claim (with its non-strict threshold) says the credential is due, but the
code (strict comparison) says it is not. -/
theorem refreshDue_boundary_counterexample :
    claimRefreshDue "oauth" (some (60 * 60 * 1000)) 0 = true ∧
    refreshDue "oauth" (some (60 * 60 * 1000)) 0 = false := by
  constructor <;> rfl

/-- Claim C3 (amended): the refresh-due decision returns true exactly when
the credential type is oauth, expires_at is non-null and expires_at - now
is strictly less than one hour; a null expires_at is never due; the
59-minute boundary is due and the 61-minute boundary is not; and the
scheduler sweep test (part_003) agrees with the healthCheck test on
oauth credentials. -/
theorem refreshDue_characterisation :
    (∀ (ct : String) (e now : Int),
      refreshDue ct (some e) now = true ↔ ct = "oauth" ∧ e - now < 60 * 60 * 1000) ∧
    (∀ (ct : String) (now : Int), refreshDue ct none now = false) ∧
    (∀ now : Int, refreshDue "oauth" (some (now + 59 * 60 * 1000)) now = true) ∧
    (∀ now : Int, refreshDue "oauth" (some (now + 61 * 60 * 1000)) now = false) ∧
    (∀ (e now : Int),
      needsRefreshSweep (some e) now = refreshDue "oauth" (some e) now) := by
  refine ⟨fun ct e now => ?_, fun ct now => ?_, fun now => ?_, fun now => ?_,
    fun e now => ?_⟩
  · simp only [refreshDue, Bool.and_eq_true, beq_iff_eq, decide_eq_true_eq]
  · simp [refreshDue]
  · simp only [refreshDue, beq_self_eq_true, Bool.true_and, decide_eq_true_eq]
    omega
  · simp only [refreshDue, beq_self_eq_true, Bool.true_and, decide_eq_false_iff_not]
    omega
  · simp only [refreshDue, needsRefreshSweep, beq_self_eq_true, Bool.true_and]
    congr 1
    exact propext (by omega)

/-! ## Data model

Rows of the relational store, after the migrations
supabase/migrations/20250630000847_shrill_mode.sql and
20250710162128_violet_lagoon.sql.  Timestamp bookkeeping columns
(created_at, updated_at, last_used_at, last_refreshed_at) are carried
only where a claim depends on them (updated_at on integrations, used for
ordering). -/

/-- A credentials row (migration 20250710162128, UNIQUE(user_id, platform)).
Secret columns hold ciphertext.  Option models SQL NULL. -/
structure Credential where
  id : Nat
  user_id : String
  platform : String
  platform_name : String
  credential_type : String
  access_token : Option String
  refresh_token : Option String
  api_key : Option String
  api_secret : Option String
  additional_data : Option String
  scopes : List String
  expires_at : Option Int
  status : String
  is_active : Bool
  integration_id : Option Nat
deriving Repr, DecidableEq

/-- An integrations row (UNIQUE(user_id, provider_key, workspace_id)). -/
structure Integration where
  id : Nat
  user_id : String
  workspace_id : Option String
  provider_key : String
  provider_name : String
  status : String
  health_score : Option Int
  error_message : Option String
  metadata : List (String × String)
  updated_at : Int
deriving Repr, DecidableEq

/-- An integration_logs row (append-only audit record). -/
structure LogRow where
  user_id : String
  platform : String
  action : String
  status : String
  log_level : String
  message : String
deriving Repr, DecidableEq

/-- An integration_sync_jobs row.  The result summary holds the triple
(success, initialSyncCompleted, webhookSetup) written by the worker. -/
structure SyncJob where
  id : Nat
  integration_id : Nat
  job_type : String
  status : String
  error_message : Option String
  result_summary : Option (Bool × Bool × Bool)
deriving Repr, DecidableEq

/-! ## Credentials upsert (claim C1)

storeCredentials/index.ts lines 113 to 134 upserts the credentials row
with onConflict user_id,platform; the migration enforces
UNIQUE(user_id, platform).  Postgres upsert semantics: when a row with
the conflict key exists, the supplied columns overwrite it (the row id is
kept); otherwise the row is inserted. -/

/-- Does a credentials row carry the given (user, platform) key. -/
def credKeyIs (u p : String) (r : Credential) : Bool :=
  r.user_id == u && r.platform == p

/-- Column update applied on conflict: every supplied column of the new
row overwrites the existing row; the id is kept. -/
def applyCredUpsert (existing incoming : Credential) : Credential :=
  { incoming with id := existing.id }

/-- Postgres upsert keyed on (user_id, platform). -/
def upsertCredential (tbl : List Credential) (row : Credential) : List Credential :=
  if tbl.any (credKeyIs row.user_id row.platform) then
    tbl.map (fun r =>
      if credKeyIs row.user_id row.platform r then applyCredUpsert r row else r)
  else
    tbl ++ [row]

/-- Number of rows for a (user, platform) pair. -/
def credCount (tbl : List Credential) (u p : String) : Nat :=
  tbl.countP (credKeyIs u p)

/-- Number of active rows for a (user, platform) pair. -/
def activeCredCount (tbl : List Credential) (u p : String) : Nat :=
  tbl.countP (fun r => credKeyIs u p r && r.is_active)

/-- The rows for a (user, platform) pair. -/
def credRowsFor (tbl : List Credential) (u p : String) : List Credential :=
  tbl.filter (credKeyIs u p)

theorem credKeyIs_applyCredUpsert (u p : String) (r row : Credential) :
    credKeyIs u p (applyCredUpsert r row) = credKeyIs u p row := by
  simp [credKeyIs, applyCredUpsert]

theorem activeCount_le_credCount (tbl : List Credential) (u p : String) :
    activeCredCount tbl u p ≤ credCount tbl u p := by
  induction tbl with
  | nil => simp [activeCredCount, credCount]
  | cons r t ih =>
    simp only [activeCredCount, credCount, List.countP_cons] at *
    rcases hk : credKeyIs u p r <;> rcases ha : r.is_active <;> simp [hk, ha] <;> omega

theorem credCount_upsert_existing (tbl : List Credential) (row : Credential)
    (h : tbl.any (credKeyIs row.user_id row.platform) = true) (u p : String) :
    credCount (upsertCredential tbl row) u p = credCount tbl u p := by
  simp only [upsertCredential, if_pos h, credCount, List.countP_map]
  apply List.countP_congr
  intro r _
  by_cases hk : credKeyIs row.user_id row.platform r = true
  · simp only [Function.comp_apply, hk, if_pos hk, credKeyIs_applyCredUpsert]
    have h1 : r.user_id = row.user_id ∧ r.platform = row.platform := by
      simpa [credKeyIs] using hk
    simp [credKeyIs, h1.1, h1.2, applyCredUpsert]
  · simp [Function.comp_apply, if_neg hk]

theorem credCount_upsert_new (tbl : List Credential) (row : Credential)
    (h : tbl.any (credKeyIs row.user_id row.platform) = false) (u p : String) :
    credCount (upsertCredential tbl row) u p =
      credCount tbl u p + (if credKeyIs u p row then 1 else 0) := by
  simp [upsertCredential, h, credCount, List.countP_cons]

theorem credCount_upsert_le (tbl : List Credential) (row : Credential) (u p : String)
    (hinv : credCount tbl u p ≤ 1) :
    credCount (upsertCredential tbl row) u p ≤ 1 := by
  rcases hany : tbl.any (credKeyIs row.user_id row.platform) with _ | _
  · rw [credCount_upsert_new tbl row hany]
    by_cases hk : credKeyIs u p row = true
    · have h0 : credCount tbl u p = 0 := by
        simp only [credCount, List.countP_eq_zero]
        intro r hr hkr
        have h1 : r.user_id = u ∧ r.platform = p := by simpa [credKeyIs] using hkr
        have h2 : row.user_id = u ∧ row.platform = p := by simpa [credKeyIs] using hk
        have : credKeyIs row.user_id row.platform r = true := by
          simp [credKeyIs, h1.1, h1.2, h2.1, h2.2]
        have := List.any_eq_false.mp hany r hr
        exact this ‹_›
      simp [h0, hk]
    · simp only [Bool.not_eq_true] at hk
      simp [hk, hinv]
  · rw [credCount_upsert_existing tbl row hany]
    exact hinv

/-- After a save for (u, p) there is at least one row for (u, p). -/
theorem credCount_upsert_pos (tbl : List Credential) (row : Credential) :
    1 ≤ credCount (upsertCredential tbl row) row.user_id row.platform := by
  rcases hany : tbl.any (credKeyIs row.user_id row.platform) with _ | _
  · rw [credCount_upsert_new tbl row hany]
    simp [credKeyIs]
  · rw [credCount_upsert_existing tbl row hany]
    rcases List.any_eq_true.mp hany with ⟨r, hr, hk⟩
    simp only [credCount]
    calc 1 = [r].countP (credKeyIs row.user_id row.platform) := by simp [hk]
    _ ≤ tbl.countP (credKeyIs row.user_id row.platform) :=
        List.Sublist.countP_le _ (List.singleton_sublist.mpr hr)

theorem credRowsFor_upsert_secrets (tbl : List Credential) (row : Credential)
    (c : Credential)
    (hc : c ∈ credRowsFor (upsertCredential tbl row) row.user_id row.platform) :
    c.access_token = row.access_token ∧ c.refresh_token = row.refresh_token ∧
    c.api_key = row.api_key ∧ c.api_secret = row.api_secret ∧
    c.is_active = row.is_active ∧ c.status = row.status ∧
    c.expires_at = row.expires_at := by
  simp only [credRowsFor, List.mem_filter] at hc
  obtain ⟨hmem, hkey⟩ := hc
  rcases hany : tbl.any (credKeyIs row.user_id row.platform) with _ | _
  · simp only [upsertCredential, hany, Bool.false_eq_true, if_false,
      List.mem_append, List.mem_singleton] at hmem
    rcases hmem with hmem | rfl
    · exact absurd hkey (by simpa using List.any_eq_false.mp hany c hmem)
    · exact ⟨rfl, rfl, rfl, rfl, rfl, rfl, rfl⟩
  · simp only [upsertCredential, hany, if_true, List.mem_map] at hmem
    obtain ⟨r, hr, hrc⟩ := hmem
    by_cases hk : credKeyIs row.user_id row.platform r = true
    · rw [if_pos hk] at hrc
      subst hrc
      exact ⟨rfl, rfl, rfl, rfl, rfl, rfl, rfl⟩
    · rw [if_neg hk] at hrc
      subst hrc
      exact absurd hkey hk

/-- Claim C1: the upsert keyed on (user, platform) preserves the
uniqueness invariant (at most one row, hence at most one active row, per
pair), and saving twice for the same pair leaves exactly one row whose
secret columns are those of the second save. -/
theorem credential_upsert_unique :
    (∀ (tbl : List Credential) (row : Credential) (u p : String),
      credCount tbl u p ≤ 1 →
        credCount (upsertCredential tbl row) u p ≤ 1 ∧
        activeCredCount (upsertCredential tbl row) u p ≤ 1) ∧
    (∀ (tbl : List Credential) (r1 r2 : Credential),
      r1.user_id = r2.user_id → r1.platform = r2.platform →
      credCount tbl r2.user_id r2.platform ≤ 1 →
        credCount (upsertCredential (upsertCredential tbl r1) r2)
            r2.user_id r2.platform = 1 ∧
        ∀ c ∈ credRowsFor (upsertCredential (upsertCredential tbl r1) r2)
            r2.user_id r2.platform,
          c.access_token = r2.access_token ∧ c.refresh_token = r2.refresh_token ∧
          c.api_key = r2.api_key ∧ c.api_secret = r2.api_secret ∧
          c.is_active = r2.is_active ∧ c.status = r2.status ∧
          c.expires_at = r2.expires_at) := by
  constructor
  · intro tbl row u p hinv
    have h1 := credCount_upsert_le tbl row u p hinv
    exact ⟨h1, le_trans (activeCount_le_credCount _ u p) h1⟩
  · intro tbl r1 r2 hu hp hinv
    have hinv1 : credCount (upsertCredential tbl r1) r2.user_id r2.platform ≤ 1 := by
      rw [← hu, ← hp] at hinv ⊢
      exact credCount_upsert_le tbl r1 r1.user_id r1.platform hinv
    have hle := credCount_upsert_le (upsertCredential tbl r1) r2
      r2.user_id r2.platform hinv1
    have hpos := credCount_upsert_pos (upsertCredential tbl r1) r2
    exact ⟨le_antisymm hle hpos, fun c hc =>
      credRowsFor_upsert_secrets (upsertCredential tbl r1) r2 c hc⟩

/-- Closed witness for C1 at a concrete table: a fresh save followed by a
second save for the same pair leaves exactly one row for the pair. -/
theorem credential_upsert_unique_witness :
    credCount
      (upsertCredential
        (upsertCredential []
          { id := 1, user_id := "u1", platform := "slack",
            platform_name := "Slack", credential_type := "oauth",
            access_token := some "ct-a1", refresh_token := some "ct-r1",
            api_key := none, api_secret := none, additional_data := none,
            scopes := [], expires_at := some 1000, status := "connected",
            is_active := true, integration_id := some 7 })
        { id := 2, user_id := "u1", platform := "slack",
          platform_name := "Slack", credential_type := "oauth",
          access_token := some "ct-a2", refresh_token := some "ct-r2",
          api_key := none, api_secret := none, additional_data := none,
          scopes := [], expires_at := some 2000, status := "connected",
          is_active := true, integration_id := some 7 })
      "u1" "slack" = 1 := by
  have h := credential_upsert_unique.2 []
    { id := 1, user_id := "u1", platform := "slack",
      platform_name := "Slack", credential_type := "oauth",
      access_token := some "ct-a1", refresh_token := some "ct-r1",
      api_key := none, api_secret := none, additional_data := none,
      scopes := [], expires_at := some 1000, status := "connected",
      is_active := true, integration_id := some 7 }
    { id := 2, user_id := "u1", platform := "slack",
      platform_name := "Slack", credential_type := "oauth",
      access_token := some "ct-a2", refresh_token := some "ct-r2",
      api_key := none, api_secret := none, additional_data := none,
      scopes := [], expires_at := some 2000, status := "connected",
      is_active := true, integration_id := some 7 }
    rfl rfl (by decide)
  exact h.1

/-! ## Revoke handler (claim C4)

src/unnamed/part_002: after the integration, credential and provider
lookups succeed, the handler decrypts the stored tokens (outside any
inner try), calls provider.revokeAccess inside a try/catch whose catch
only logs and continues, and then unconditionally deactivates the
credential and disconnects the integration.  The provider call result is
never inspected. -/

/-- A nullable string field is truthy in JS when present and non-empty. -/
def jsTruthy : Option String → Bool
  | none => false
  | some s => s != ""

/-- Decrypt of a nullable ciphertext column, following the JS pattern
field ? decrypt(field, key) : null (a falsy column skips the call). -/
def decryptOptField (field : Option String) (key : String) :
    Except DecryptionError (Option String) :=
  match field with
  | none => Except.ok none
  | some c => if c = "" then Except.ok none else (decrypt c key).map some

/-- Outcome of the outbound provider.revokeAccess call. -/
inductive RevokeCallResult where
  | success
  | failure (err : String)
  | thrown (err : String)
deriving Repr, DecidableEq

/-- Result of the revoke handler from the token-decryption step onward. -/
structure RevokeOutcome where
  credFinal : Credential
  integFinal : Integration
  logs : List LogRow
  console : List String
  success : Bool
  error : Option String
deriving Repr, DecidableEq

/-- The revoke handler of src/unnamed/part_002 after the lookups: decrypt
tokens, best-effort provider revoke (only when the access token is
truthy; a throw is caught and logged to the console), then local
deactivation, disconnect and audit log. -/
def revokeHandlerStep (integ : Integration) (cred : Credential) (key : String)
    (call : RevokeCallResult) : RevokeOutcome :=
  match decryptOptField cred.access_token key, decryptOptField cred.refresh_token key with
  | Except.error _, _ =>
      { credFinal := cred, integFinal := integ, logs := [], console := [],
        success := false, error := some "Malformed UTF-8 data" }
  | _, Except.error _ =>
      { credFinal := cred, integFinal := integ, logs := [], console := [],
        success := false, error := some "Malformed UTF-8 data" }
  | Except.ok accessToken, Except.ok _ =>
      let console :=
        if jsTruthy accessToken then
          match call with
          | RevokeCallResult.thrown e => ["Provider revoke error: " ++ e]
          | _ => []
        else []
      { credFinal := { cred with is_active := false, status := "disconnected" },
        integFinal := { integ with status := "disconnected" },
        logs := [{ user_id := cred.user_id, platform := integ.provider_key,
                   action := "revoke_token", status := "disconnected",
                   log_level := "info",
                   message := "Integration disconnected successfully" }],
        console := console,
        success := true, error := none }

/-- Claim C4: whatever the provider revokeAccess call does (success,
structured failure, or throw), once the stored tokens decrypt the local
deactivation proceeds: the credential ends inactive with status
disconnected and the integration ends disconnected. -/
theorem revoke_best_effort (integ : Integration) (cred : Credential)
    (key : String) (call : RevokeCallResult)
    (a r : Option String)
    (ha : decryptOptField cred.access_token key = Except.ok a)
    (hr : decryptOptField cred.refresh_token key = Except.ok r) :
    (revokeHandlerStep integ cred key call).credFinal.is_active = false ∧
    (revokeHandlerStep integ cred key call).credFinal.status = "disconnected" ∧
    (revokeHandlerStep integ cred key call).integFinal.status = "disconnected" ∧
    (revokeHandlerStep integ cred key call).success = true := by
  simp only [revokeHandlerStep, ha, hr]
  refine ⟨?_, ?_, ?_, ?_⟩ <;> trivial

/-- Closed witness for C4: a provider call that returns a structured
failure still yields local deactivation, on concrete rows. -/
theorem revoke_best_effort_witness :
    (revokeHandlerStep
      { id := 3, user_id := "u1", workspace_id := none,
        provider_key := "slack", provider_name := "Slack",
        status := "connected", health_score := some 100,
        error_message := none, metadata := [], updated_at := 0 }
      { id := 4, user_id := "u1", platform := "slack",
        platform_name := "Slack", credential_type := "oauth",
        access_token := some (encrypt "tok" "k"),
        refresh_token := none, api_key := none, api_secret := none,
        additional_data := none, scopes := [], expires_at := none,
        status := "connected", is_active := true, integration_id := some 3 }
      "k" (RevokeCallResult.failure "provider 500")).credFinal.is_active
        = false := by
  have h := revoke_best_effort
    { id := 3, user_id := "u1", workspace_id := none,
      provider_key := "slack", provider_name := "Slack",
      status := "connected", health_score := some 100,
      error_message := none, metadata := [], updated_at := 0 }
    { id := 4, user_id := "u1", platform := "slack",
      platform_name := "Slack", credential_type := "oauth",
      access_token := some (encrypt "tok" "k"),
      refresh_token := none, api_key := none, api_secret := none,
      additional_data := none, scopes := [], expires_at := none,
      status := "connected", is_active := true, integration_id := some 3 }
    "k" (RevokeCallResult.failure "provider 500")
    (some "tok") none (by rfl) (by rfl)
  exact h.1

/-! ## Health scheduler sweep (src/unnamed/part_003, claims C5 and C6)

The cron sweep selects integrations (status in connected or error, inner
join with credentials, ascending updated_at, limit 100), then processes
each row inside a per-item try/catch, tallying refreshed, errors and
skipped.  The selected column list (lines 38 to 52) contains neither
health_score nor updated_at, so on the fetched row integration.health_score
is undefined. -/

/-- The credentials columns of the inner join in the sweep select. -/
structure SweepCredentialRow where
  id : Nat
  credential_type : String
  access_token : Option String
  refresh_token : Option String
  expires_at : Option Int
  last_refreshed_at : Option Int
deriving Repr, DecidableEq

/-- The integrations columns of the sweep select, with the joined
credentials array.  health_score is not selected and so is absent. -/
structure SweepIntegrationRow where
  id : Nat
  user_id : String
  provider_key : String
  provider_name : String
  status : String
  credentials : List SweepCredentialRow
deriving Repr, DecidableEq

/-- Projection of a credentials row to the sweep select columns. -/
def projectSweepCredential (c : Credential) : SweepCredentialRow :=
  { id := c.id, credential_type := c.credential_type,
    access_token := c.access_token, refresh_token := c.refresh_token,
    expires_at := c.expires_at, last_refreshed_at := none }

/-- Projection of an integrations row joined with its credentials rows. -/
def projectSweepIntegration (i : Integration) (creds : List Credential) :
    SweepIntegrationRow :=
  { id := i.id, user_id := i.user_id, provider_key := i.provider_key,
    provider_name := i.provider_name, status := i.status,
    credentials := (creds.filter
      (fun c => c.integration_id == some i.id)).map projectSweepCredential }

/-- The JS expression v OR d on a nullable number: null, undefined and 0
are falsy and yield the default. -/
def jsOrInt : Option Int → Int → Int
  | none, d => d
  | some x, d => if x = 0 then d else x

/-- Health written by the catch branch of the sweep (part_003 line 173):
Math.max(0, (integration.health_score OR 100) - 10). -/
def failureHealthUpdate (h : Option Int) : Int :=
  max 0 (jsOrInt h 100 - 10)

/-- Definition following the claim text (not the source): a failure
decrements the current health by 10, floored at 0. -/
def claimFailureHealth (h : Int) : Int := max 0 (h - 10)

/-- Columns written to the integrations row by a sweep branch. -/
structure IntegrationWrite where
  status : String
  health_score : Option Int
  error_message : Option String
deriving Repr, DecidableEq

/-- Update applied on a successful refresh (part_003 lines 138 to 146). -/
def sweepSuccessUpdate : IntegrationWrite :=
  { status := "connected", health_score := some 100, error_message := none }

/-- Update applied in the catch branch (part_003 lines 169 to 177).  The
fetched row has no health_score column, so the JS member access yields
undefined and the written health is failureHealthUpdate none. -/
def sweepCatchUpdate (msg : String) : IntegrationWrite :=
  { status := "error", health_score := some (failureHealthUpdate none),
    error_message := some msg }

/-- Classification of one sweep iteration. -/
inductive SweepClass where
  | refreshed
  | skipped
  | errored (msg : String)
deriving Repr, DecidableEq

/-- The refresh attempt of the sweep try block: decryptData on the
refresh token (null for a falsy column, a crypto-js throw on malformed
ciphertext), a throw when the result is null, then the simulated refresh
and the two row updates (assumed to succeed). -/
def sweepRefreshAttempt (key : String) (c : SweepCredentialRow) : SweepClass :=
  match c.refresh_token with
  | none => SweepClass.errored "No refresh token available"
  | some rt =>
    if rt = "" then SweepClass.errored "No refresh token available"
    else
      match aesDecryptRaw rt key with
      | Except.error _ => SweepClass.errored "Malformed UTF-8 data"
      | Except.ok s =>
        if s = "" then SweepClass.errored "No refresh token available"
        else SweepClass.refreshed

/-- One iteration of the sweep loop (part_003 lines 79 to 191): take
integration.credentials[0]; skip when absent; when the token is within
one hour of expiry and a refresh token is present, attempt the refresh,
else skip.  The per-item catch turns any throw into an errored class. -/
def sweepStep (key : String) (now : Int) (i : SweepIntegrationRow) : SweepClass :=
  match i.credentials.head? with
  | none => SweepClass.skipped
  | some c =>
    if needsRefreshSweep c.expires_at now && jsTruthy c.refresh_token then
      sweepRefreshAttempt key c
    else SweepClass.skipped

/-- The integrations-row write of one sweep iteration. -/
def sweepStepWrite (key : String) (now : Int) (i : SweepIntegrationRow) :
    Option IntegrationWrite :=
  match sweepStep key now i with
  | SweepClass.refreshed => some sweepSuccessUpdate
  | SweepClass.skipped => none
  | SweepClass.errored m => some (sweepCatchUpdate m)

/-- The aggregate counters returned by the sweep. -/
structure SweepTotals where
  total : Nat
  refreshed : Nat
  errors : Nat
  skipped : Nat
deriving Repr, DecidableEq

/-- Counter update for one classified iteration. -/
def classTally (t : SweepTotals) : SweepClass → SweepTotals
  | SweepClass.refreshed => { t with refreshed := t.refreshed + 1 }
  | SweepClass.skipped => { t with skipped := t.skipped + 1 }
  | SweepClass.errored _ => { t with errors := t.errors + 1 }

/-- Is the class refreshed. -/
def isRefreshedClass : SweepClass → Bool
  | SweepClass.refreshed => true
  | _ => false

/-- Is the class skipped. -/
def isSkippedClass : SweepClass → Bool
  | SweepClass.skipped => true
  | _ => false

/-- Is the class errored. -/
def isErroredClass : SweepClass → Bool
  | SweepClass.errored _ => true
  | _ => false

theorem isRefreshedClass_refreshed : isRefreshedClass SweepClass.refreshed = true := rfl

theorem isRefreshedClass_skipped : isRefreshedClass SweepClass.skipped = false := rfl

theorem isRefreshedClass_errored (m : String) :
    isRefreshedClass (SweepClass.errored m) = false := rfl

theorem isSkippedClass_refreshed : isSkippedClass SweepClass.refreshed = false := rfl

theorem isSkippedClass_skipped : isSkippedClass SweepClass.skipped = true := rfl

theorem isSkippedClass_errored (m : String) :
    isSkippedClass (SweepClass.errored m) = false := rfl

theorem isErroredClass_refreshed : isErroredClass SweepClass.refreshed = false := rfl

theorem isErroredClass_skipped : isErroredClass SweepClass.skipped = false := rfl

theorem isErroredClass_errored (m : String) :
    isErroredClass (SweepClass.errored m) = true := rfl

/-- The whole sweep loop over the fetched batch. -/
def sweepCounts (key : String) (now : Int) (batch : List SweepIntegrationRow) :
    SweepTotals :=
  batch.foldl (fun t i => classTally t (sweepStep key now i))
    { total := batch.length, refreshed := 0, errors := 0, skipped := 0 }

theorem sweepFold_spec (key : String) (now : Int) :
    ∀ (batch : List SweepIntegrationRow) (t : SweepTotals),
      batch.foldl (fun t i => classTally t (sweepStep key now i)) t =
        { total := t.total,
          refreshed := t.refreshed +
            batch.countP (fun i => isRefreshedClass (sweepStep key now i)),
          errors := t.errors +
            batch.countP (fun i => isErroredClass (sweepStep key now i)),
          skipped := t.skipped +
            batch.countP (fun i => isSkippedClass (sweepStep key now i)) } := by
  intro batch
  induction batch with
  | nil => intro t; simp [List.countP_nil]
  | cons i rest ih =>
    intro t
    rw [List.foldl_cons, ih]
    rcases hc : sweepStep key now i with _ | _ | m <;>
      simp [classTally, hc, List.countP_cons, isRefreshedClass,
        isErroredClass, isSkippedClass] <;> omega

/-- Demo batch item: an oauth credential one second from expiry whose
refresh token decrypts under the key k. -/
def sweepRowRefreshable : SweepIntegrationRow :=
  { id := 1, user_id := "u", provider_key := "gmail",
    provider_name := "Gmail", status := "connected",
    credentials := [
      { id := 11, credential_type := "oauth", access_token := none,
        refresh_token := some (encrypt "rt1" "k"),
        expires_at := some 1000, last_refreshed_at := none }] }

/-- Demo batch item: same shape but the refresh token ciphertext is
corrupted, so its decryption throws. -/
def sweepRowBadDecrypt : SweepIntegrationRow :=
  { id := 2, user_id := "u", provider_key := "slack",
    provider_name := "Slack", status := "connected",
    credentials := [
      { id := 12, credential_type := "oauth", access_token := none,
        refresh_token := some "corrupted-ciphertext",
        expires_at := some 1000, last_refreshed_at := none }] }

/-- Demo batch item: a credential with no expiry, never due. -/
def sweepRowNotDue : SweepIntegrationRow :=
  { id := 3, user_id := "u", provider_key := "instagram",
    provider_name := "Instagram", status := "error",
    credentials := [
      { id := 13, credential_type := "oauth", access_token := none,
        refresh_token := some (encrypt "rt3" "k"),
        expires_at := none, last_refreshed_at := none }] }

/-- Claim C6: the sweep processes every integration of the batch (each
item is classified by its own data alone, through the per-item
try/catch), the aggregate counters partition the batch, and on a
three-item batch whose second item fails to decrypt the sweep still
refreshes the first, skips the third and reports one error. -/
theorem sweep_partial_failure_isolation :
    (∀ (key : String) (now : Int) (batch : List SweepIntegrationRow),
      (sweepCounts key now batch).total = batch.length ∧
      (sweepCounts key now batch).refreshed =
        batch.countP (fun i => isRefreshedClass (sweepStep key now i)) ∧
      (sweepCounts key now batch).errors =
        batch.countP (fun i => isErroredClass (sweepStep key now i)) ∧
      (sweepCounts key now batch).skipped =
        batch.countP (fun i => isSkippedClass (sweepStep key now i)) ∧
      (sweepCounts key now batch).refreshed + (sweepCounts key now batch).errors
        + (sweepCounts key now batch).skipped = batch.length) ∧
    (sweepCounts "k" 0 [sweepRowRefreshable, sweepRowBadDecrypt, sweepRowNotDue] =
      { total := 3, refreshed := 1, errors := 1, skipped := 1 }) := by
  constructor
  · intro key now batch
    have h := sweepFold_spec key now batch
      { total := batch.length, refreshed := 0, errors := 0, skipped := 0 }
    simp only [sweepCounts, h]
    refine ⟨by trivial, by simp, by simp, by simp, ?_⟩
    simp only [Nat.zero_add]
    have hsum : ∀ l : List SweepIntegrationRow,
        l.countP (fun i => isRefreshedClass (sweepStep key now i)) +
        l.countP (fun i => isErroredClass (sweepStep key now i)) +
        l.countP (fun i => isSkippedClass (sweepStep key now i)) = l.length := by
      intro l
      induction l with
      | nil => simp
      | cons i rest ih =>
        rcases hc : sweepStep key now i with _ | _ | m <;>
          simp [List.countP_cons, hc, isRefreshedClass_refreshed,
            isRefreshedClass_skipped, isRefreshedClass_errored,
            isSkippedClass_refreshed, isSkippedClass_skipped,
            isSkippedClass_errored, isErroredClass_refreshed,
            isErroredClass_skipped, isErroredClass_errored] <;> omega
    exact hsum batch
  · decide

/-- Claim C5 (evaluating the code at its failing inputs): the claimed
decrement-with-floor semantics is claimFailureHealth, but the sweep catch
branch computes failureHealthUpdate, whose JS OR treats both 0 and the
never-selected health_score column as falsy.  A failure at health 0
writes 90 instead of staying at 0, and because the sweep select omits
health_score every failure writes 90 regardless of the stored value,
while the success branch does reset health to exactly 100. -/
theorem health_penalty_bug :
    failureHealthUpdate (some 0) = 90 ∧
    failureHealthUpdate none = 90 ∧
    failureHealthUpdate (some 50) = 40 ∧
    claimFailureHealth 0 = 0 ∧
    claimFailureHealth 50 = 40 ∧
    failureHealthUpdate (some 0) ≠ claimFailureHealth 0 ∧
    (sweepCatchUpdate "boom").health_score = some 90 ∧
    sweepSuccessUpdate.health_score = some 100 := by
  decide

/-! ## Sweep selection queries (claim C9)

part_003 lines 36 to 55: status in (connected, error), inner join with
credentials, order by updated_at ascending, limit 100.
healthCheck/index.ts lines 34 to 38: status in (connected, error), order
by updated_at with ascending false, and no limit. -/

/-- The status filter shared by both sweeps. -/
def statusEligible (i : Integration) : Bool :=
  i.status == "connected" || i.status == "error"

/-- Ascending order on updated_at. -/
def updatedAsc (a b : Integration) : Prop := a.updated_at ≤ b.updated_at

/-- Descending order on updated_at. -/
def updatedDesc (a b : Integration) : Prop := b.updated_at ≤ a.updated_at

instance : DecidableRel updatedAsc := fun _ _ => Int.decLe _ _

instance : DecidableRel updatedDesc := fun _ _ => Int.decLe _ _

instance : IsTotal Integration updatedAsc :=
  ⟨fun a b => Int.le_total a.updated_at b.updated_at⟩

instance : IsTrans Integration updatedAsc :=
  ⟨fun _ _ _ h1 h2 => le_trans h1 h2⟩

instance : IsTotal Integration updatedDesc :=
  ⟨fun a b => Int.le_total b.updated_at a.updated_at⟩

instance : IsTrans Integration updatedDesc :=
  ⟨fun _ _ _ h1 h2 => le_trans h2 h1⟩

/-- The scheduler sweep query (part_003): status filter, inner join with
credentials (rows without any credentials row are dropped), ascending
updated_at, limit 100. -/
def schedulerSelect (integs : List Integration) (creds : List Credential) :
    List Integration :=
  (((integs.filter (fun i =>
      statusEligible i && creds.any (fun c => c.integration_id == some i.id)))
    ).insertionSort updatedAsc).take 100

/-- The healthCheck sweep query (healthCheck/index.ts): status filter,
descending updated_at, no limit. -/
def healthCheckSelect (integs : List Integration) : List Integration :=
  (integs.filter statusEligible).insertionSort updatedDesc

/-- Definition following the claim text (not the source): status filter,
ascending updated_at, limit 100, for every sweep. -/
def claimSelect (integs : List Integration) : List Integration :=
  ((integs.filter statusEligible).insertionSort updatedAsc).take 100

/-- Concrete row: connected, updated at time 1. -/
def integRowOld : Integration :=
  { id := 1, user_id := "u", workspace_id := none, provider_key := "gmail",
    provider_name := "Gmail", status := "connected", health_score := some 100,
    error_message := none, metadata := [], updated_at := 1 }

/-- Concrete row: connected, updated at time 2. -/
def integRowNew : Integration :=
  { id := 2, user_id := "u", workspace_id := none, provider_key := "slack",
    provider_name := "Slack", status := "connected", health_score := some 100,
    error_message := none, metadata := [], updated_at := 2 }

/-- Counterexample to claim C9: the healthCheck sweep returns the batch
newest-first, not oldest-first as claimed, and the scheduler sweep drops
an eligible integration that has no credentials row, while the claimed
selection keeps it. -/
theorem sweep_query_counterexample :
    healthCheckSelect [integRowOld, integRowNew] = [integRowNew, integRowOld] ∧
    claimSelect [integRowOld, integRowNew] = [integRowOld, integRowNew] ∧
    healthCheckSelect [integRowOld, integRowNew] ≠
      claimSelect [integRowOld, integRowNew] ∧
    schedulerSelect [integRowOld] [] = [] ∧
    claimSelect [integRowOld] = [integRowOld] := by
  decide

/-- Claim C9 (amended): both sweeps select only integrations with status
connected or error; the scheduler sweep additionally requires a joined
credentials row, returns at most 100 rows ordered oldest-updated-first,
and keeps every eligible row when at most 100 are eligible; the
healthCheck sweep keeps every eligible row but orders them
newest-updated-first and is unbounded. -/
theorem sweep_query_characterisation :
    (∀ (integs : List Integration) (creds : List Credential),
      (schedulerSelect integs creds).length ≤ 100 ∧
      List.Sorted updatedAsc (schedulerSelect integs creds) ∧
      (∀ i ∈ schedulerSelect integs creds,
        i ∈ integs ∧ (i.status = "connected" ∨ i.status = "error") ∧
        ∃ c ∈ creds, c.integration_id = some i.id) ∧
      ((integs.filter (fun i =>
          statusEligible i && creds.any (fun c => c.integration_id == some i.id))
        ).length ≤ 100 →
        ∀ i, i ∈ schedulerSelect integs creds ↔
          i ∈ integs ∧ statusEligible i = true ∧
          creds.any (fun c => c.integration_id == some i.id) = true)) ∧
    (∀ integs : List Integration,
      List.Sorted updatedDesc (healthCheckSelect integs) ∧
      ∀ i, i ∈ healthCheckSelect integs ↔
        i ∈ integs ∧ (i.status = "connected" ∨ i.status = "error")) := by
  constructor
  · intro integs creds
    refine ⟨?_, ?_, ?_, ?_⟩
    · have h100 := List.length_take_le 100 ((integs.filter (fun i =>
        statusEligible i && creds.any (fun c => c.integration_id == some i.id))
        ).insertionSort updatedAsc)
      simp only [schedulerSelect]
      exact h100
    · exact List.Pairwise.sublist (List.take_sublist _ _)
        (List.sorted_insertionSort updatedAsc _)
    · intro i hi
      have hmem : i ∈ (integs.filter (fun i =>
          statusEligible i && creds.any (fun c => c.integration_id == some i.id))
        ).insertionSort updatedAsc :=
        List.mem_of_mem_take hi
      rw [(List.perm_insertionSort updatedAsc _).mem_iff, List.mem_filter] at hmem
      obtain ⟨hin, hprop⟩ := hmem
      have hprop2 := Bool.and_eq_true _ _ |>.mp hprop
      refine ⟨hin, ?_, ?_⟩
      · have := hprop2.1
        simp only [statusEligible, Bool.or_eq_true, beq_iff_eq] at this
        exact this
      · obtain ⟨c, hc, hcb⟩ := List.any_eq_true.mp hprop2.2
        exact ⟨c, hc, by simpa using hcb⟩
    · intro hlen i
      have hlen2 : ((integs.filter (fun i =>
          statusEligible i && creds.any (fun c => c.integration_id == some i.id))
        ).insertionSort updatedAsc).length ≤ 100 := by
        rw [(List.perm_insertionSort updatedAsc _).length_eq]
        exact hlen
      have htake : schedulerSelect integs creds =
          (integs.filter (fun i =>
            statusEligible i && creds.any (fun c => c.integration_id == some i.id))
          ).insertionSort updatedAsc := by
        simp only [schedulerSelect]
        exact List.take_of_length_le hlen2
      rw [htake, (List.perm_insertionSort updatedAsc _).mem_iff, List.mem_filter,
        Bool.and_eq_true]
  · intro integs
    refine ⟨List.sorted_insertionSort updatedDesc _, fun i => ?_⟩
    rw [healthCheckSelect, (List.perm_insertionSort updatedDesc _).mem_iff,
      List.mem_filter]
    simp only [statusEligible, Bool.or_eq_true, beq_iff_eq]

/-- Closed witness for the amended C9 statement: on a one-row table with
a credentials row attached, the scheduler sweep keeps the eligible row. -/
theorem sweep_query_characterisation_witness :
    integRowOld ∈ schedulerSelect [integRowOld]
      [{ id := 4, user_id := "u1", platform := "gmail",
         platform_name := "Gmail", credential_type := "oauth",
         access_token := none, refresh_token := none, api_key := none,
         api_secret := none, additional_data := none, scopes := [],
         expires_at := none, status := "connected", is_active := true,
         integration_id := some 1 }] := by
  have h := (sweep_query_characterisation.1 [integRowOld]
    [{ id := 4, user_id := "u1", platform := "gmail",
       platform_name := "Gmail", credential_type := "oauth",
       access_token := none, refresh_token := none, api_key := none,
       api_secret := none, additional_data := none, scopes := [],
       expires_at := none, status := "connected", is_active := true,
       integration_id := some 1 }]).2.2.2 (by decide) integRowOld
  exact h.mpr ⟨by decide, by decide, by decide⟩

/-! ## healthCheck per-integration processing (claim C8)

healthCheck/index.ts lines 47 to 183: for each fetched integration, look
up its single active credential (log, set error, continue when absent),
then inside a try/catch check expiry, resolve the provider, decrypt the
refresh token, check client credentials and log the refresh initiation;
any throw is caught, logged, recorded on the integration as status error,
and the loop continues with the next integration. -/

/-- The from(credentials).eq(integration_id).eq(is_active, true).single()
lookup: exactly one matching row, else an error. -/
def findActiveCredential (creds : List Credential) (iid : Nat) : Option Credential :=
  match creds.filter (fun c => c.integration_id == some iid && c.is_active) with
  | [c] => some c
  | _ => none

/-- Per-request environment of the healthCheck function: encryption key,
current time, the provider registry keys, and the provider keys whose
CLIENT_ID and CLIENT_SECRET environment secrets are both set. -/
structure HcEnv where
  key : String
  now : Int
  providers : List String
  clientCreds : List String
deriving Repr, DecidableEq

/-- One entry of the results array returned by the sweep. -/
structure HcResultEntry where
  integrationId : Nat
  providerKey : String
  status : String
  message : String
deriving Repr, DecidableEq

/-- The body of the per-integration try block; Except.error is a throw. -/
def hcTryBody (env : HcEnv) (integ : Integration) (c : Credential) :
    Except String (HcResultEntry × List LogRow) :=
  if c.credential_type == "oauth" && c.expires_at.isSome then
    if refreshDue c.credential_type c.expires_at env.now then
      if env.providers.contains integ.provider_key then
        match decryptOptField c.refresh_token env.key with
        | Except.error _ => Except.error "Malformed UTF-8 data"
        | Except.ok rt =>
          if jsTruthy rt then
            if env.clientCreds.contains integ.provider_key then
              Except.ok
                ({ integrationId := integ.id, providerKey := integ.provider_key,
                   status := "pending", message := "Token refresh initiated" },
                 [{ user_id := integ.user_id, platform := integ.provider_key,
                    action := "token_refresh", status := "pending",
                    log_level := "info",
                    message := "Token refresh initiated by health check" }])
            else
              Except.error ("Missing client credentials for " ++ integ.provider_key)
          else Except.error "Missing refresh token"
      else Except.error ("Provider not found: " ++ integ.provider_key)
    else
      Except.ok
        ({ integrationId := integ.id, providerKey := integ.provider_key,
           status := "connected", message := "Token is valid" }, [])
  else
    Except.ok
      ({ integrationId := integ.id, providerKey := integ.provider_key,
         status := "connected", message := "Credential is valid" }, [])

/-- One iteration of the healthCheck loop: credential lookup, try body,
catch converting a throw into an error result plus an integrations-row
update (status and error_message only; health_score is not written). -/
def hcStep (env : HcEnv) (creds : List Credential) (integ : Integration) :
    HcResultEntry × Option IntegrationWrite × List LogRow :=
  match findActiveCredential creds integ.id with
  | none =>
    ({ integrationId := integ.id, providerKey := integ.provider_key,
       status := "error", message := "Credential not found" },
     some { status := "error", health_score := none,
            error_message := some "Credential not found" },
     [{ user_id := integ.user_id, platform := integ.provider_key,
        action := "health_check", status := "error", log_level := "error",
        message := "Credential not found" }])
  | some c =>
    match hcTryBody env integ c with
    | Except.ok (entry, logs) => (entry, none, logs)
    | Except.error msg =>
      ({ integrationId := integ.id, providerKey := integ.provider_key,
         status := "error", message := msg },
       some { status := "error", health_score := none,
              error_message := some msg },
       [{ user_id := integ.user_id, platform := integ.provider_key,
          action := "health_check", status := "error", log_level := "error",
          message := "Health check error: " ++ msg }])

/-- The healthCheck loop over the fetched batch. -/
def hcSweep (env : HcEnv) (creds : List Credential) (batch : List Integration) :
    List (HcResultEntry × Option IntegrationWrite × List LogRow) :=
  batch.map (hcStep env creds)

theorem replicate_sep_prefix_inj :
    ∀ (n1 : Nat) (t1 : List Char) (n2 : Nat) (t2 : List Char),
      (List.replicate n1 'x' ++ '|' :: t1) <+: (List.replicate n2 'x' ++ '|' :: t2) →
      n1 = n2 ∧ t1 <+: t2 := by
  intro n1
  induction n1 with
  | zero =>
    intro t1 n2 t2 h
    cases n2 with
    | zero =>
      simp only [List.replicate, List.nil_append, List.cons_prefix_cons] at h
      exact ⟨rfl, h.2⟩
    | succ m =>
      simp only [List.replicate_succ, List.replicate, List.nil_append,
        List.cons_append, List.cons_prefix_cons] at h
      exact absurd h.1 (by decide)
  | succ n ih =>
    intro t1 n2 t2 h
    cases n2 with
    | zero =>
      simp only [List.replicate_succ, List.replicate, List.nil_append,
        List.cons_append, List.cons_prefix_cons] at h
      exact absurd h.1 (by decide)
    | succ m =>
      simp only [List.replicate_succ, List.cons_append, List.cons_prefix_cons] at h
      obtain ⟨hn, ht⟩ := ih t1 m t2 h.2
      exact ⟨by omega, ht⟩

theorem cipherHeader_prefix_inj (k1 k2 : String) (r : List Char)
    (h : cipherHeader k1 <+: cipherHeader k2 ++ r) : k1 = k2 := by
  simp only [cipherHeader, List.append_assoc, List.singleton_append,
    List.prefix_append_right_inj] at h
  have h2 : (List.replicate k1.length 'x' ++ '|' :: (k1.data ++ ['|'])) <+:
      (List.replicate k2.length 'x' ++ '|' :: (k2.data ++ ('|' :: r))) := by
    simpa [List.append_assoc] using h
  obtain ⟨hn, ht⟩ := replicate_sep_prefix_inj k1.length (k1.data ++ ['|'])
    k2.length (k2.data ++ ('|' :: r)) h2
  obtain ⟨u, hu⟩ := ht
  rw [List.append_assoc] at hu
  have hlen : k1.data.length = k2.data.length := hn
  have := List.append_inj hu hlen
  exact String.ext this.1

theorem decrypt_wrong_key (s k1 k2 : String) (hs : s ≠ "") (hk : k1 ≠ k2) :
    decrypt (encrypt s k1) k2 = Except.error DecryptionError.malformed := by
  have henc : encrypt s k1 = aesEncryptRaw s k1 := by rw [encrypt, if_neg hs]
  have hne : aesEncryptRaw s k1 ≠ "" := by
    rw [← henc]
    exact encrypt_ne_empty s k1 hs
  have hnp : ¬ (List.take (cipherHeader k2).length (cipherHeader k1 ++ s.data) =
      cipherHeader k2) := by
    intro htake
    have hpre : cipherHeader k2 <+: cipherHeader k1 ++ s.data := by
      rw [← htake]
      exact List.take_prefix _ _
    exact hk (cipherHeader_prefix_inj k2 k1 s.data hpre |>.symm)
  rw [henc]
  simp only [decrypt]
  rw [if_neg hne]
  simp only [aesDecryptRaw, aesEncryptRaw]
  rw [if_neg hnp]

theorem decrypt_ok_shape (ct k s : String) (h : decrypt ct k = Except.ok s) :
    ct = "" ∨ ct = aesEncryptRaw s k := by
  by_cases hct : ct = ""
  · exact Or.inl hct
  · right
    simp only [decrypt, if_neg hct, aesDecryptRaw] at h
    by_cases htake : ct.data.take (cipherHeader k).length = cipherHeader k
    · rw [if_pos htake] at h
      have hdata : s.data = ct.data.drop (cipherHeader k).length := by
        have := Except.ok.inj h
        rw [← this]
      have h2 := List.take_append_drop (cipherHeader k).length ct.data
      rw [htake] at h2
      apply String.ext
      simp only [aesEncryptRaw]
      rw [hdata]
      exact h2.symm
    · rw [if_neg htake] at h
      exact absurd h (by simp)

/-- Claim C8: a successful decrypt of a non-empty ciphertext recovers
exactly a string whose encryption under that key the ciphertext is (no
silent garbage), a wrong-key decryption of any real ciphertext fails with
a DecryptionError, and the healthCheck sweep converts a failed
refresh-token decrypt into integration status error with the decrypt
message while every other integration of the batch is still processed
(item j of the sweep output depends only on row j). -/
theorem decrypt_failure_handling :
    (∀ (ct k s : String), decrypt ct k = Except.ok s →
      ct = "" ∨ ct = aesEncryptRaw s k) ∧
    (∀ s k1 k2 : String, s ≠ "" → k1 ≠ k2 →
      decrypt (encrypt s k1) k2 = Except.error DecryptionError.malformed) ∧
    (∀ (env : HcEnv) (creds : List Credential) (integ : Integration)
      (c : Credential),
      findActiveCredential creds integ.id = some c →
      c.credential_type = "oauth" →
      refreshDue c.credential_type c.expires_at env.now = true →
      env.providers.contains integ.provider_key = true →
      (∃ ct, c.refresh_token = some ct ∧
        decrypt ct env.key = Except.error DecryptionError.malformed) →
      (hcStep env creds integ).1.status = "error" ∧
      (hcStep env creds integ).2.1 = some
        { status := "error", health_score := none,
          error_message := some "Malformed UTF-8 data" }) ∧
    (∀ (env : HcEnv) (creds : List Credential) (batch : List Integration)
      (j : Nat),
      (hcSweep env creds batch).length = batch.length ∧
      (hcSweep env creds batch)[j]? = (batch[j]?).map (hcStep env creds)) := by
  refine ⟨decrypt_ok_shape, decrypt_wrong_key, ?_, ?_⟩
  · intro env creds integ c hfind hct hdue hprov hbad
    obtain ⟨ct, hrt, hdec⟩ := hbad
    have hctne : ct ≠ "" := by
      intro h
      rw [h] at hdec
      simp [decrypt] at hdec
    have hfield : decryptOptField c.refresh_token env.key =
        Except.error DecryptionError.malformed := by
      rw [hrt]
      simp only [decryptOptField, if_neg hctne, hdec, Except.map]
    rcases hexp : c.expires_at with _ | e
    · rw [hexp] at hdue
      simp [refreshDue] at hdue
    · have houter : (c.credential_type == "oauth" && c.expires_at.isSome) = true := by
        rw [hct, hexp]
        rfl
      have hbody : hcTryBody env integ c = Except.error "Malformed UTF-8 data" := by
        simp only [hcTryBody, houter, if_true, hdue, hprov, hfield]
      simp only [hcStep, hfind, hbody]
      refine ⟨?_, ?_⟩ <;> trivial
  · intro env creds batch j
    refine ⟨?_, ?_⟩
    · show (batch.map (hcStep env creds)).length = batch.length
      exact List.length_map _ _
    · show (batch.map (hcStep env creds))[j]? = (batch[j]?).map (hcStep env creds)
      exact List.getElem?_map _ _ _

/-- Closed witness for C8: on a concrete batch where the only credential
of the second integration has a corrupted refresh token, the sweep marks
that integration error with the decrypt message. -/
theorem decrypt_failure_handling_witness :
    (hcStep { key := "k", now := 0, providers := ["slack"],
              clientCreds := ["slack"] }
      [{ id := 20, user_id := "u", platform := "slack",
         platform_name := "Slack", credential_type := "oauth",
         access_token := none, refresh_token := some "corrupted",
         api_key := none, api_secret := none, additional_data := none,
         scopes := [], expires_at := some 1000, status := "connected",
         is_active := true, integration_id := some 2 }]
      integRowNew).1.status = "error" := by
  have h := decrypt_failure_handling.2.2.1
    { key := "k", now := 0, providers := ["slack"], clientCreds := ["slack"] }
    [{ id := 20, user_id := "u", platform := "slack",
       platform_name := "Slack", credential_type := "oauth",
       access_token := none, refresh_token := some "corrupted",
       api_key := none, api_secret := none, additional_data := none,
       scopes := [], expires_at := some 1000, status := "connected",
       is_active := true, integration_id := some 2 }]
    integRowNew
    { id := 20, user_id := "u", platform := "slack",
      platform_name := "Slack", credential_type := "oauth",
      access_token := none, refresh_token := some "corrupted",
      api_key := none, api_secret := none, additional_data := none,
      scopes := [], expires_at := some 1000, status := "connected",
      is_active := true, integration_id := some 2 }
    (by decide) rfl (by decide) (by decide)
    ⟨"corrupted", rfl, by rfl⟩
  exact h.1

/-! ## storeCredentials handler (claim C10)

storeCredentials/index.ts: validate parameters, check the user exists,
upsert the integrations row (onConflict user_id,provider_key,workspace_id,
status pending, health 100), encrypt each present secret, upsert the
credentials row (onConflict user_id,platform, status connected, active),
append an audit log, then insert the bootstrap sync job; a job insert
error (lines 163 to 165) is only logged to the console and the handler
still returns success with jobId job?.id, which is absent. -/

/-- The request body of storeCredentials. -/
structure StoreRequest where
  userId : String
  providerKey : String
  providerName : String
  credentialType : String
  accessToken : Option String
  refreshToken : Option String
  apiKey : Option String
  apiSecret : Option String
  expiresAt : Option Int
  additionalData : Option String
  scopes : List String
  workspaceId : Option String
deriving Repr, DecidableEq

/-- The tables touched by the handlers. -/
structure Db where
  user_profiles : List String
  integrations : List Integration
  credentials : List Credential
  integration_logs : List LogRow
  integration_sync_jobs : List SyncJob
deriving Repr, DecidableEq

/-- Does an integrations row carry the given conflict key. -/
def integKeyIs (u pk : String) (w : Option String) (i : Integration) : Bool :=
  i.user_id == u && i.provider_key == pk && i.workspace_id == w

/-- The integrations row inserted by storeCredentials when no row with
the conflict key exists. -/
def freshIntegrationRow (req : StoreRequest) (now : Int) (fresh : Nat) :
    Integration :=
  { id := fresh, user_id := req.userId, workspace_id := req.workspaceId,
    provider_key := req.providerKey, provider_name := req.providerName,
    status := "pending", health_score := some 100,
    error_message := none, metadata := [], updated_at := now }

/-- Columns written to a conflicting integrations row by the
storeCredentials upsert. -/
def pendingIntegrationUpdate (req : StoreRequest) (now : Int) (i : Integration) :
    Integration :=
  { i with provider_name := req.providerName, status := "pending",
           health_score := some 100, updated_at := now }

/-- Postgres upsert of the integrations row built by storeCredentials,
keyed on (user_id, provider_key, workspace_id), returning the table and
the id of the returned representation. -/
def upsertIntegration (tbl : List Integration) (fresh : Nat) (req : StoreRequest)
    (now : Int) : List Integration × Nat :=
  match tbl.find? (integKeyIs req.userId req.providerKey req.workspaceId) with
  | some existing =>
    (tbl.map (fun i =>
      if integKeyIs req.userId req.providerKey req.workspaceId i then
        pendingIntegrationUpdate req now i
      else i),
     existing.id)
  | none =>
    (tbl ++ [freshIntegrationRow req now fresh], fresh)

/-- Encryption of a nullable secret, following the JS pattern
value ? encrypt(value, key) : null (absent and empty stay null). -/
def encryptField (v : Option String) (key : String) : Option String :=
  match v with
  | none => none
  | some s => if s = "" then none else some (encrypt s key)

/-- The JSON response of storeCredentials. -/
structure StoreResponse where
  success : Bool
  integrationId : Option Nat
  jobId : Option Nat
  error : Option String
deriving Repr, DecidableEq

/-- Database, response and console output of one handler run. -/
structure StoreOutcome where
  db : Db
  resp : StoreResponse
  console : List String
deriving Repr, DecidableEq

/-- The credentials row built by storeCredentials from the request. -/
def storeCredentialRow (req : StoreRequest) (key : String) (cid iid : Nat) :
    Credential :=
  { id := cid, user_id := req.userId, platform := req.providerKey,
    platform_name := req.providerName, credential_type := req.credentialType,
    access_token := encryptField req.accessToken key,
    refresh_token := encryptField req.refreshToken key,
    api_key := encryptField req.apiKey key,
    api_secret := encryptField req.apiSecret key,
    additional_data := req.additionalData, scopes := req.scopes,
    expires_at := req.expiresAt, status := "connected", is_active := true,
    integration_id := some iid }

/-- The storeCredentials handler.  fresh ids stand for the generated row
ids; jobInsertFails tells whether the sync-job insert errors. -/
def storeCredentials (db : Db) (req : StoreRequest) (key : String) (now : Int)
    (freshIntegrationId freshCredentialId freshJobId : Nat)
    (jobInsertFails : Bool) : StoreOutcome :=
  if req.userId = "" ∨ req.providerKey = "" ∨ req.providerName = "" ∨
      req.credentialType = "" then
    { db := db,
      resp := { success := false, integrationId := none, jobId := none,
                error := some "Missing required parameters" },
      console := ["Store credentials error: Missing required parameters"] }
  else if db.user_profiles.contains req.userId = false then
    { db := db,
      resp := { success := false, integrationId := none, jobId := none,
                error := some "User not found" },
      console := ["Store credentials error: User not found"] }
  else
    let up := upsertIntegration db.integrations freshIntegrationId req now
    let credTbl := upsertCredential db.credentials
      (storeCredentialRow req key freshCredentialId up.2)
    let logTbl := db.integration_logs ++
      [{ user_id := req.userId, platform := req.providerKey,
         action := "store_credential", status := "connected",
         log_level := "info",
         message := "Successfully stored " ++ req.credentialType ++
           " credential for " ++ req.providerName }]
    if jobInsertFails then
      { db := { db with integrations := up.1, credentials := credTbl,
                        integration_logs := logTbl },
        resp := { success := true, integrationId := some up.2, jobId := none,
                  error := none },
        console := ["Failed to create bootstrap job"] }
    else
      { db := { db with integrations := up.1, credentials := credTbl,
                        integration_logs := logTbl,
                        integration_sync_jobs := db.integration_sync_jobs ++
                          [{ id := freshJobId, integration_id := up.2,
                             job_type := "bootstrap", status := "pending",
                             error_message := none, result_summary := none }] },
        resp := { success := true, integrationId := some up.2,
                  jobId := some freshJobId, error := none },
        console := [] }

theorem upsertIntegration_mem (tbl : List Integration) (fresh : Nat)
    (req : StoreRequest) (now : Int) :
    ∃ i ∈ (upsertIntegration tbl fresh req now).1,
      i.id = (upsertIntegration tbl fresh req now).2 ∧ i.status = "pending" ∧
      i.user_id = req.userId ∧ i.provider_key = req.providerKey := by
  rcases hfind : tbl.find? (integKeyIs req.userId req.providerKey req.workspaceId)
    with _ | existing
  · refine ⟨freshIntegrationRow req now fresh, ?_, ?_, rfl, rfl, rfl⟩
    · simp [upsertIntegration, hfind]
    · simp [upsertIntegration, hfind, freshIntegrationRow]
  · have hmem : existing ∈ tbl := List.mem_of_find?_eq_some hfind
    have hp : integKeyIs req.userId req.providerKey req.workspaceId existing = true :=
      List.find?_some hfind
    have hk : existing.user_id = req.userId ∧ existing.provider_key = req.providerKey := by
      have := hp
      simp only [integKeyIs, Bool.and_eq_true, beq_iff_eq] at this
      exact ⟨this.1.1, this.1.2⟩
    refine ⟨pendingIntegrationUpdate req now existing, ?_, ?_, ?_, ?_, ?_⟩
    · simp only [upsertIntegration, hfind]
      refine List.mem_map.mpr ⟨existing, hmem, ?_⟩
      rw [if_pos hp]
    · simp [upsertIntegration, hfind, pendingIntegrationUpdate]
    · simp [pendingIntegrationUpdate]
    · simp [pendingIntegrationUpdate, hk.1]
    · simp [pendingIntegrationUpdate, hk.2]

/-- Claim C10: when the bootstrap job insert fails, storeCredentials
still responds success true with the integration id and no job id; the
integrations table holds the pending row, the credentials table holds the
active connected row for (user, platform), no sync job is enqueued, and
the failure shows up only on the console. -/
theorem store_credentials_job_insert_failure (db : Db) (req : StoreRequest)
    (key : String) (now : Int) (iid cid jid : Nat)
    (hu : req.userId ≠ "") (hpk : req.providerKey ≠ "")
    (hpn : req.providerName ≠ "") (hctype : req.credentialType ≠ "")
    (huser : db.user_profiles.contains req.userId = true) :
    (storeCredentials db req key now iid cid jid true).resp.success = true ∧
    (storeCredentials db req key now iid cid jid true).resp.jobId = none ∧
    (storeCredentials db req key now iid cid jid true).resp.integrationId ≠ none ∧
    (storeCredentials db req key now iid cid jid true).db.integration_sync_jobs
      = db.integration_sync_jobs ∧
    (∃ i ∈ (storeCredentials db req key now iid cid jid true).db.integrations,
      some i.id = (storeCredentials db req key now iid cid jid true
        ).resp.integrationId ∧ i.status = "pending" ∧
      i.user_id = req.userId ∧ i.provider_key = req.providerKey) ∧
    (∃ c ∈ (storeCredentials db req key now iid cid jid true).db.credentials,
      c.user_id = req.userId ∧ c.platform = req.providerKey ∧
      c.is_active = true ∧ c.status = "connected") ∧
    (storeCredentials db req key now iid cid jid true).console =
      ["Failed to create bootstrap job"] := by
  have hguard : ¬ (req.userId = "" ∨ req.providerKey = "" ∨
      req.providerName = "" ∨ req.credentialType = "") := by
    push_neg
    exact ⟨hu, hpk, hpn, hctype⟩
  have huser2 : ¬ (db.user_profiles.contains req.userId = false) := by
    rw [huser]
    decide
  simp only [storeCredentials, if_neg hguard, if_neg huser2, eq_self_iff_true,
    if_true]
  refine ⟨by trivial, by trivial, by simp, by trivial, ?_, ?_, by trivial⟩
  · obtain ⟨i, hmem, hid, hst, huid, hpkey⟩ := upsertIntegration_mem
      db.integrations iid req now
    exact ⟨i, hmem, by rw [hid], hst, huid, hpkey⟩
  · have hpos := credCount_upsert_pos db.credentials
      (storeCredentialRow req key cid (upsertIntegration db.integrations iid req now).2)
    rw [credCount] at hpos
    obtain ⟨c, hcmem, hcp⟩ := List.countP_pos_iff.mp hpos
    have hkey : c.user_id = req.userId ∧ c.platform = req.providerKey := by
      simpa [credKeyIs, storeCredentialRow] using hcp
    have hcrows : c ∈ credRowsFor
        (upsertCredential db.credentials
          (storeCredentialRow req key cid (upsertIntegration db.integrations iid req now).2))
        (storeCredentialRow req key cid
          (upsertIntegration db.integrations iid req now).2).user_id
        (storeCredentialRow req key cid
          (upsertIntegration db.integrations iid req now).2).platform := by
      simp only [credRowsFor, List.mem_filter]
      exact ⟨hcmem, hcp⟩
    have hcfields := credRowsFor_upsert_secrets db.credentials
      (storeCredentialRow req key cid (upsertIntegration db.integrations iid req now).2)
      c hcrows
    refine ⟨c, hcmem, hkey.1, hkey.2, ?_, ?_⟩
    · rw [hcfields.2.2.2.2.1]
      rfl
    · rw [hcfields.2.2.2.2.2.1]
      rfl

/-- Closed witness for C10 on a concrete database and request. -/
theorem store_credentials_job_insert_failure_witness :
    (storeCredentials
      { user_profiles := ["u1"], integrations := [], credentials := [],
        integration_logs := [], integration_sync_jobs := [] }
      { userId := "u1", providerKey := "slack", providerName := "Slack",
        credentialType := "oauth", accessToken := some "tok",
        refreshToken := none, apiKey := none, apiSecret := none,
        expiresAt := some 1000, additionalData := none, scopes := [],
        workspaceId := none }
      "k" 0 1 2 3 true).resp.success = true := by
  have h := store_credentials_job_insert_failure
    { user_profiles := ["u1"], integrations := [], credentials := [],
      integration_logs := [], integration_sync_jobs := [] }
    { userId := "u1", providerKey := "slack", providerName := "Slack",
      credentialType := "oauth", accessToken := some "tok",
      refreshToken := none, apiKey := none, apiSecret := none,
      expiresAt := some 1000, additionalData := none, scopes := [],
      workspaceId := none }
    "k" 0 1 2 3 (by decide) (by decide) (by decide) (by decide) (by decide)
  exact h.1

/-! ## Bootstrap job processing (claim C7)

src/unnamed/part_007 processJob (and the identical worker body of
src/unnamed/part_006): mark the job running, load integration and
credential, decrypt the four secret columns, require an access token or
api key, invoke the provider bootstrap, and either persist the webhook
registration (upsert keyed by integration id), connect the integration
(health 100, metadata spread-merged with the result metadata) and mark
the job completed with a result summary, or, in the catch, set the
integration to error with the message and mark the job failed.
Timestamp columns (started_at, completed_at, last_sync_at, next_sync_at)
are not modelled. -/

/-- The structured result of a provider bootstrap call. -/
structure BootstrapResult where
  success : Bool
  webhookId : Option String
  webhookSecret : Option String
  initialSyncCompleted : Bool
  error : Option String
  metadata : List (String × String)
deriving Repr, DecidableEq

/-- Outcome of the provider bootstrap invocation: a structured return or
a thrown error. -/
inductive PluginCall where
  | returns (r : BootstrapResult)
  | throws (msg : String)
deriving Repr, DecidableEq

/-- An integration_webhooks row. -/
structure WebhookRow where
  integration_id : Nat
  webhook_id : Option String
  webhook_secret : Option String
  webhook_url : String
  is_active : Bool
deriving Repr, DecidableEq

/-- Postgres upsert of the webhook registration, onConflict
integration_id; every modelled column is in the update set, so the
conflicting row is replaced. -/
def upsertWebhook (tbl : List WebhookRow) (row : WebhookRow) : List WebhookRow :=
  if tbl.any (fun w => w.integration_id == row.integration_id) then
    tbl.map (fun w => if w.integration_id == row.integration_id then row else w)
  else tbl ++ [row]

/-- The JS object spread of two metadata maps: keys of the new map win;
modelled as an association list whose lookup prefers the new map. -/
def mergeMetadata (old new : List (String × String)) :
    List (String × String) :=
  old.filter (fun p => !(new.any (fun q => q.1 == p.1))) ++ new

/-- Lookup in an association-list metadata map. -/
def metaLookup (l : List (String × String)) (k : String) : Option String :=
  (l.find? (fun p => p.1 == k)).map (fun p => p.2)

/-- The JS expression v OR d on a nullable string. -/
def jsOrStr (v : Option String) (d : String) : String :=
  match v with
  | none => d
  | some s => if s = "" then d else s

theorem find?_filter_of_imp (l : List (String × String))
    (p f : (String × String) → Bool) (h : ∀ a, p a = true → f a = true) :
    (l.filter f).find? p = l.find? p := by
  induction l with
  | nil => rfl
  | cons a t ih =>
    by_cases hp : p a = true
    · rw [List.filter_cons_of_pos (h a hp), List.find?_cons_of_pos _ hp,
        List.find?_cons_of_pos _ hp]
    · have hp2 : ¬ p a := by simpa using hp
      by_cases hf : f a = true
      · rw [List.filter_cons_of_pos hf, List.find?_cons_of_neg _ hp2,
          List.find?_cons_of_neg _ hp2, ih]
      · rw [List.filter_cons_of_neg (by simpa using hf),
          List.find?_cons_of_neg _ hp2, ih]

theorem metaLookup_merge (old new : List (String × String)) (k : String) :
    metaLookup (mergeMetadata old new) k =
      match metaLookup new k with
      | some v => some v
      | none => metaLookup old k := by
  rcases hnew : new.find? (fun p => p.1 == k) with _ | q
  · have hnone : ∀ q ∈ new, ¬ ((fun p => p.1 == k) q = true) :=
      List.find?_eq_none.mp hnew
    have hfilter : (old.filter
        (fun p => !(new.any (fun q => q.1 == p.1)))).find? (fun p => p.1 == k) =
        old.find? (fun p => p.1 == k) := by
      apply find?_filter_of_imp
      intro a ha
      have hak : a.1 = k := by simpa using ha
      simp only [Bool.not_eq_true', List.any_eq_false]
      intro q hq
      have := hnone q hq
      simp only [beq_iff_eq] at this ⊢
      rw [hak]
      intro hqk
      exact this hqk
    simp only [metaLookup, mergeMetadata, List.find?_append, hfilter, hnew,
      Option.or_none]
    rfl
  · simp only [metaLookup, mergeMetadata, List.find?_append, hnew]
    have hq : q.1 = k := by
      have := List.find?_some hnew
      simpa using this
    have hfilter : (old.filter
        (fun p => !(new.any (fun q => q.1 == p.1)))).find? (fun p => p.1 == k) =
        none := by
      rw [List.find?_eq_none]
      intro x hx
      rw [List.mem_filter] at hx
      intro hxk
      have hxk2 : x.1 = k := by simpa using hxk
      have hnotany := hx.2
      simp only [Bool.not_eq_true', List.any_eq_false] at hnotany
      have h3 := hnotany q (List.mem_of_find?_eq_some hnew)
      exact absurd (by simp [hq, hxk2] : (q.1 == x.1) = true) h3
    rw [hfilter]
    rfl

/-- Outcome of one processJob run: the job statuses written in order, the
final job row, the integrations-row update, the webhook table and the
appended logs. -/
structure BootstrapJobOutcome where
  jobStatusTrace : List String
  jobFinal : SyncJob
  integFinal : Option Integration
  webhooks : List WebhookRow
  logs : List LogRow
deriving Repr, DecidableEq

/-- The try-block body of processJob up to the bootstrap call; Except is
a throw reaching the catch. -/
def processJobBody (integ : Option Integration) (cred : Option Credential)
    (key : String) (call : PluginCall) :
    Except String (Integration × Credential × BootstrapResult) :=
  match integ with
  | none => Except.error "Integration not found"
  | some i =>
    match cred with
    | none => Except.error "Credentials not found"
    | some c =>
      match decryptOptField c.access_token key, decryptOptField c.refresh_token key,
            decryptOptField c.api_key key, decryptOptField c.api_secret key with
      | Except.ok a, Except.ok _, Except.ok ak, Except.ok _ =>
        if !(jsTruthy a) && !(jsTruthy ak) then
          Except.error "No access token or API key available"
        else
          match call with
          | PluginCall.throws m => Except.error m
          | PluginCall.returns r =>
            if r.success then Except.ok (i, c, r)
            else Except.error (jsOrStr r.error "Bootstrap failed")
      | _, _, _, _ => Except.error "Malformed UTF-8 data"

/-- Job columns written on bootstrap success. -/
def completedJob (job : SyncJob) (r : BootstrapResult) : SyncJob :=
  { job with status := "completed",
             result_summary :=
               some (true, r.initialSyncCompleted, jsTruthy r.webhookId) }

/-- Job columns written in the catch branch. -/
def failedJob (job : SyncJob) (msg : String) : SyncJob :=
  { job with status := "failed", error_message := some msg }

/-- Integration columns written on bootstrap success. -/
def connectedIntegration (i : Integration) (r : BootstrapResult) : Integration :=
  { i with status := "connected", health_score := some 100,
           error_message := none,
           metadata := mergeMetadata i.metadata r.metadata }

/-- Integration columns written in the catch branch. -/
def erroredIntegration (i : Integration) (msg : String) : Integration :=
  { i with status := "error", error_message := some msg }

/-- The webhook row the worker upserts for a bootstrap result. -/
def bootstrapWebhookRow (jobIntegrationId : Nat) (providerKey appUrl : String)
    (r : BootstrapResult) : WebhookRow :=
  { integration_id := jobIntegrationId, webhook_id := r.webhookId,
    webhook_secret := r.webhookSecret,
    webhook_url := appUrl ++ "/api/webhooks/" ++ providerKey,
    is_active := true }

/-- processJob from src/unnamed/part_007 lines 54 to 216. -/
def processJob (job : SyncJob) (integ : Option Integration)
    (cred : Option Credential) (key : String) (appUrl : String)
    (call : PluginCall) (webhooks : List WebhookRow) : BootstrapJobOutcome :=
  match processJobBody integ cred key call with
  | Except.ok (i, _, r) =>
    { jobStatusTrace := ["running", "completed"],
      jobFinal := completedJob job r,
      integFinal := some (connectedIntegration i r),
      webhooks :=
        if jsTruthy r.webhookId || jsTruthy r.webhookSecret then
          upsertWebhook webhooks
            (bootstrapWebhookRow job.integration_id i.provider_key appUrl r)
        else webhooks,
      logs := [{ user_id := i.user_id, platform := i.provider_key,
                 action := "bootstrap", status := "connected",
                 log_level := "info",
                 message := "Successfully bootstrapped " ++ i.provider_name ++
                   " integration" }] }
  | Except.error msg =>
    { jobStatusTrace := ["running", "failed"],
      jobFinal := failedJob job msg,
      integFinal := integ.map (fun i => erroredIntegration i msg),
      webhooks := webhooks,
      logs := [{ user_id := "", platform := "unknown", action := "bootstrap",
                 status := "error", log_level := "error",
                 message := "Bootstrap failed: " ++ msg }] }

theorem upsertWebhook_mem (tbl : List WebhookRow) (row : WebhookRow) :
    row ∈ upsertWebhook tbl row := by
  rcases hany : tbl.any (fun w => w.integration_id == row.integration_id)
    with _ | _
  · simp [upsertWebhook, hany]
  · simp only [upsertWebhook, hany, if_true]
    obtain ⟨w, hw, hwk⟩ := List.any_eq_true.mp hany
    refine List.mem_map.mpr ⟨w, hw, ?_⟩
    rw [if_pos hwk]

/-- Claim C7: the job is first marked running; on a successful bootstrap
the returned webhook registration is upserted keyed by the integration
id, the integration is set connected with health 100 and its metadata
merged with the result metadata with new keys winning, and the job is
marked completed with a result summary; on a structured failure or throw
the integration is set to error with the failure message and the job is
marked failed. -/
theorem bootstrap_job_lifecycle (job : SyncJob) (i : Integration)
    (c : Credential) (key appUrl : String) (call : PluginCall)
    (webhooks : List WebhookRow) (a rt ak sec : Option String)
    (ha : decryptOptField c.access_token key = Except.ok a)
    (hrt : decryptOptField c.refresh_token key = Except.ok rt)
    (hak : decryptOptField c.api_key key = Except.ok ak)
    (hsec : decryptOptField c.api_secret key = Except.ok sec)
    (htok : (!(jsTruthy a) && !(jsTruthy ak)) = false) :
    (processJob job (some i) (some c) key appUrl call webhooks
      ).jobStatusTrace.head? = some "running" ∧
    (∀ r : BootstrapResult, call = PluginCall.returns r → r.success = true →
      (processJob job (some i) (some c) key appUrl call webhooks
        ).jobFinal.status = "completed" ∧
      (processJob job (some i) (some c) key appUrl call webhooks
        ).jobFinal.result_summary =
        some (true, r.initialSyncCompleted, jsTruthy r.webhookId) ∧
      (∃ i2, (processJob job (some i) (some c) key appUrl call webhooks
          ).integFinal = some i2 ∧
        i2.status = "connected" ∧ i2.health_score = some 100 ∧
        i2.error_message = none ∧
        (∀ k, metaLookup i2.metadata k =
          match metaLookup r.metadata k with
          | some v => some v
          | none => metaLookup i.metadata k)) ∧
      ((jsTruthy r.webhookId || jsTruthy r.webhookSecret) = true →
        bootstrapWebhookRow job.integration_id i.provider_key appUrl r ∈
          (processJob job (some i) (some c) key appUrl call webhooks
            ).webhooks)) ∧
    (∀ m : String, call = PluginCall.throws m →
      (processJob job (some i) (some c) key appUrl call webhooks
        ).jobFinal.status = "failed" ∧
      (processJob job (some i) (some c) key appUrl call webhooks
        ).jobFinal.error_message = some m ∧
      (processJob job (some i) (some c) key appUrl call webhooks
        ).integFinal = some (erroredIntegration i m)) ∧
    (∀ r : BootstrapResult, call = PluginCall.returns r → r.success = false →
      (processJob job (some i) (some c) key appUrl call webhooks
        ).jobFinal.status = "failed" ∧
      (processJob job (some i) (some c) key appUrl call webhooks
        ).jobFinal.error_message = some (jsOrStr r.error "Bootstrap failed") ∧
      (processJob job (some i) (some c) key appUrl call webhooks
        ).integFinal =
          some (erroredIntegration i (jsOrStr r.error "Bootstrap failed"))) := by
  refine ⟨?_, ?_, ?_, ?_⟩
  · rcases hbody : processJobBody (some i) (some c) key call with trip | msg <;>
      simp [processJob, hbody]
  · intro r hcall hsucc
    subst hcall
    have hbody : processJobBody (some i) (some c) key
        (PluginCall.returns r) = Except.ok (i, c, r) := by
      simp only [processJobBody, ha, hrt, hak, hsec, htok, Bool.false_eq_true,
        if_false, hsucc, if_true]
    refine ⟨?_, ?_, ?_, ?_⟩
    · simp [processJob, hbody, completedJob]
    · simp [processJob, hbody, completedJob]
    · refine ⟨connectedIntegration i r, ?_, ?_, ?_, ?_, ?_⟩
      · simp only [processJob, hbody]
      · rfl
      · rfl
      · rfl
      · intro k
        exact metaLookup_merge i.metadata r.metadata k
    · intro hwh
      simp only [processJob, hbody, hwh, if_true]
      exact upsertWebhook_mem webhooks _
  · intro m hcall
    subst hcall
    have hbody : processJobBody (some i) (some c) key
        (PluginCall.throws m) = Except.error m := by
      simp only [processJobBody, ha, hrt, hak, hsec, htok, Bool.false_eq_true,
        if_false]
    refine ⟨?_, ?_, ?_⟩ <;> simp [processJob, hbody, failedJob]
  · intro r hcall hfail
    subst hcall
    have hbody : processJobBody (some i) (some c) key
        (PluginCall.returns r) =
        Except.error (jsOrStr r.error "Bootstrap failed") := by
      simp only [processJobBody, ha, hrt, hak, hsec, htok, Bool.false_eq_true,
        if_false, hfail]
    refine ⟨?_, ?_, ?_⟩ <;> simp [processJob, hbody, failedJob]

/-- Demo job row for the C7 witness. -/
def demoBootstrapJob : SyncJob :=
  { id := 5, integration_id := 1, job_type := "bootstrap",
    status := "pending", error_message := none, result_summary := none }

/-- Demo credential row for the C7 witness. -/
def demoBootstrapCredential : Credential :=
  { id := 4, user_id := "u1", platform := "gmail",
    platform_name := "Gmail", credential_type := "oauth",
    access_token := some (encrypt "tok" "k"),
    refresh_token := none, api_key := none, api_secret := none,
    additional_data := none, scopes := [], expires_at := none,
    status := "connected", is_active := true, integration_id := some 1 }

/-- Demo bootstrap result for the C7 witness. -/
def demoBootstrapResult : BootstrapResult :=
  { success := true, webhookId := some "wh1", webhookSecret := some "s1",
    initialSyncCompleted := true, error := none, metadata := [("a", "1")] }

/-- Closed witness for C7: a successful bootstrap on concrete rows marks
the job completed. -/
theorem bootstrap_job_lifecycle_witness :
    (processJob demoBootstrapJob (some integRowOld)
      (some demoBootstrapCredential) "k" "https://app.example"
      (PluginCall.returns demoBootstrapResult) []).jobFinal.status =
      "completed" := by
  have h := bootstrap_job_lifecycle demoBootstrapJob integRowOld
    demoBootstrapCredential "k" "https://app.example"
    (PluginCall.returns demoBootstrapResult) []
    (some "tok") none none none (by rfl) (by rfl) (by rfl) (by rfl) (by rfl)
  exact (h.2.1 demoBootstrapResult rfl rfl).1

end Auth1
